import Mathlib

/-!
Verification development for the `jupiter-swap-api-client` Rust crate.

The embedding models the crate's data model and the three client
operations (`quote`, `swap`, `swap_instructions`) over an explicit JSON
value type.  The behavior of the serde-derived (de)serializers is
transcribed from the serde attributes appearing in
`src/jupiter-swap-api-client/src/transaction_config.rs` together with the
documented semantics of `serde`/`serde_json`:

* `#[serde(untagged)]` enums serialize the variant content directly; a
  unit variant therefore serializes as JSON `null`.  Deserialization
  buffers the input and tries the variants in declaration order.
* Externally tagged enums (the default; `PrioritizationFeeLamports` has
  its `#[serde(untagged)]` commented out) serialize a unit variant as the
  bare variant-name string and a newtype variant as a single-entry map.
  A variant carrying `#[serde(deserialize_with = ...)]` is deserialized
  through `VariantAccess::newtype_variant`, which *fails* on the bare
  string form (`serde_json`'s `UnitVariantAccess` rejects
  `newtype_variant`) and on the map form feeds the entry's value to the
  given function.
* A struct field of type `Option<T>` without `skip_serializing_if`
  always emits its key; `None` serializes as JSON `null`.
-/

/-- JSON values.  Numbers are restricted to integers: every number this
crate (de)serializes is a `u64`, and the `u64` deserializer rejects
non-integral numbers anyway. -/
inductive Json where
  | null
  | bool (b : Bool)
  | num (n : Int)
  | str (s : String)
  | arr (elems : List Json)
  | obj (fields : List (String × Json))
deriving Repr

/-- Solana addresses are carried by their canonical base58 string form;
only `ToString`/`FromStr` behavior of `Pubkey` is relevant to this crate. -/
abbrev Pubkey := String

/-- `ComputeUnitPriceMicroLamports` from `transaction_config.rs`:
`#[serde(untagged)]`, variants `MicroLamports(u64)` and
`Auto` (the latter with `#[serde(deserialize_with = "auto")]`). -/
inductive ComputeUnitPriceMicroLamports where
  | MicroLamports (n : Nat)
  | Auto
deriving Repr, DecidableEq

/-- `PrioritizationFeeLamports` from `transaction_config.rs`: externally
tagged (the `#[serde(untagged)]` line is commented out in the source),
`#[serde(rename_all = "camelCase")]`, variants `Auto` (with
`#[serde(deserialize_with = "auto")]`), `AutoMultiplier(u64)` and
`JitoTipLamports(u64)`. -/
inductive PrioritizationFeeLamports where
  | Auto
  | AutoMultiplier (n : Nat)
  | JitoTipLamports (n : Nat)
deriving Repr, DecidableEq

/-- Serialization of `ComputeUnitPriceMicroLamports`.  Untagged: the
newtype variant serializes its `u64` payload directly; the unit variant
`Auto` serializes as the unit value, i.e. JSON `null`. -/
def ComputeUnitPriceMicroLamports.toJson : ComputeUnitPriceMicroLamports → Json
  | .MicroLamports n => .num n
  | .Auto => .null

/-- Serialization of `PrioritizationFeeLamports`.  Externally tagged with
camelCase renaming: the unit variant `Auto` serializes as the bare string
"auto"; the newtype variants serialize as single-entry maps. -/
def PrioritizationFeeLamports.toJson : PrioritizationFeeLamports → Json
  | .Auto => .str "auto"
  | .AutoMultiplier n => .obj [("autoMultiplier", .num n)]
  | .JitoTipLamports n => .obj [("jitoTipLamports", .num n)]

/-- `serde_json` deserialization of a `u64`: an integral number within
the `u64` range. -/
def deserializeU64 (j : Json) : Except String Nat :=
  match j with
  | .num n =>
    if 0 ≤ n ∧ n < 18446744073709551616 then .ok n.toNat
    else .error "invalid value: number out of range for u64"
  | _ => .error "invalid type: expected u64"

/-- The inputs accepted by the serde-derived deserializer of the private
helper enum inside `fn auto` in `transaction_config.rs` (a single unit
variant renamed "auto"): the bare string "auto" (externally tagged unit
variant in string form), or the single-entry map form whose key is
"auto" and whose value deserializes as unit (JSON `null`). -/
def helperAutoAccepts : Json → Bool
  | .str s => s == "auto"
  | .obj fields =>
    match fields with
    | [(key, value)] =>
      key == "auto" &&
        (match value with
         | .null => true
         | _ => false)
    | _ => false
  | _ => false

/-- Deserialization of `ComputeUnitPriceMicroLamports`.  Untagged: the
input is buffered and the variants are tried in declaration order —
`MicroLamports(u64)` first, then `Auto` through `fn auto`, which
deserializes the helper enum from the buffered content. -/
def ComputeUnitPriceMicroLamports.fromJson (j : Json) :
    Except String ComputeUnitPriceMicroLamports :=
  match deserializeU64 j with
  | .ok n => .ok (.MicroLamports n)
  | .error _ =>
    if helperAutoAccepts j then .ok .Auto
    else .error "data did not match any variant of untagged enum ComputeUnitPriceMicroLamports"

/-- Deserialization of `PrioritizationFeeLamports`.  Externally tagged:
`serde_json` accepts a bare string (unit-variant form) or a single-entry
map.  Because the `Auto` variant carries `deserialize_with`, the derive
requests `newtype_variant` for it, which the bare-string form rejects
(`invalid type: unit variant, expected newtype variant`); the same holds
for the (always-newtype) numeric variants.  In the map form the entry's
value is fed to `fn auto` for `Auto` and to the `u64` deserializer for
the numeric variants. -/
def PrioritizationFeeLamports.fromJson (j : Json) :
    Except String PrioritizationFeeLamports :=
  match j with
  | .obj fields =>
    match fields with
    | [(key, value)] =>
      if key = "auto" then
        if helperAutoAccepts value then .ok .Auto
        else .error "invalid payload for variant auto"
      else if key = "autoMultiplier" then
        (deserializeU64 value).map .AutoMultiplier
      else if key = "jitoTipLamports" then
        (deserializeU64 value).map .JitoTipLamports
      else .error "unknown variant"
    | _ => .error "invalid entries: expected map with a single key"
  | .str s =>
    if s = "auto" ∨ s = "autoMultiplier" ∨ s = "jitoTipLamports" then
      .error "invalid type: unit variant, expected newtype variant"
    else .error "unknown variant"
  | _ => .error "invalid type: expected string or map"

/-- `TransactionConfig` from `transaction_config.rs`
(`#[serde(rename_all = "camelCase")]`, `Serialize` only). -/
structure TransactionConfig where
  wrap_and_unwrap_sol : Bool
  fee_account : Option Pubkey
  destination_token_account : Option Pubkey
  compute_unit_price_micro_lamports : Option ComputeUnitPriceMicroLamports
  prioritization_fee_lamports : Option PrioritizationFeeLamports
  dynamic_compute_unit_limit : Bool
  as_legacy_transaction : Bool
  use_shared_accounts : Bool
  use_token_ledger : Bool
  blockhash_slots_to_expiry : Option Nat
deriving Repr, DecidableEq

/-- `impl Default for TransactionConfig` from `transaction_config.rs`. -/
def TransactionConfig.default : TransactionConfig :=
  ⟨true, none, none, none, none, false, false, true, false, none⟩

/-- Modelled from the spec: `serde_helpers::option_field_as_string` is
referenced by `transaction_config.rs` but `serde_helpers.rs` is not under
`src/`.  Per the spec, present addresses serialize "as their canonical
string form".  A serde `with`-module serializer is invoked for the field
value unconditionally (field omission is only possible through
`skip_serializing_if`, which the struct in `src/` does not use), so an
absent value can only be emitted as JSON `null` (`serialize_none`). -/
def option_field_as_string : Option Pubkey → Json
  | some pk => .str pk
  | none => .null

/-- Serialization of a plain `Option` struct field: `None` emits `null`. -/
def Option.toJsonWith (f : α → Json) : Option α → Json
  | some x => f x
  | none => .null

/-- The serialized fields of a `TransactionConfig`, in declaration order,
with camelCase names.  Without `skip_serializing_if` every field always
emits its key. -/
def TransactionConfig.jsonFields (c : TransactionConfig) : List (String × Json) :=
  [("wrapAndUnwrapSol", .bool c.wrap_and_unwrap_sol),
   ("feeAccount", option_field_as_string c.fee_account),
   ("destinationTokenAccount", option_field_as_string c.destination_token_account),
   ("computeUnitPriceMicroLamports",
     Option.toJsonWith ComputeUnitPriceMicroLamports.toJson c.compute_unit_price_micro_lamports),
   ("prioritizationFeeLamports",
     Option.toJsonWith PrioritizationFeeLamports.toJson c.prioritization_fee_lamports),
   ("dynamicComputeUnitLimit", .bool c.dynamic_compute_unit_limit),
   ("asLegacyTransaction", .bool c.as_legacy_transaction),
   ("useSharedAccounts", .bool c.use_shared_accounts),
   ("useTokenLedger", .bool c.use_token_ledger),
   ("blockhashSlotsToExpiry", Option.toJsonWith (fun n => Json.num n) c.blockhash_slots_to_expiry)]

/-- Serialization of `TransactionConfig` as a JSON object. -/
def TransactionConfig.toJson (c : TransactionConfig) : Json :=
  .obj c.jsonFields

/-- Look a field up in a serialized JSON object (`none` when the field is
absent, which is how "entirely omitted" shows up in the output). -/
def Json.lookupField (j : Json) (key : String) : Option Json :=
  match j with
  | .obj fields => List.lookup key fields
  | _ => none

/-! ### Response data model

`quote.rs` and `swap.rs` are not under `src/`; the response types below
are modelled from the spec (§3). -/

/-- Modelled from the spec: `QuoteResponse` lives in `quote.rs`, which is
not under `src/`; per §3 the "response carries the computed route and
output amount". -/
structure QuoteResponse where
  out_amount : Nat
  route_plan : List String
deriving Repr, DecidableEq

/-- Run an `Except`-valued deserializer over every element of a JSON
array, stopping at the first error (serde's sequence behavior). -/
def exceptMapList (f : Json → Except String α) : List Json → Except String (List α)
  | [] => .ok []
  | x :: xs =>
    match f x with
    | .error e => .error e
    | .ok v => (exceptMapList f xs).map (v :: ·)

/-- Deserialize a JSON array of strings. -/
def deserStringList (j : Json) : Except String (List String) :=
  match j with
  | .arr xs =>
    exceptMapList
      (fun x => match x with
        | .str s => .ok s
        | _ => .error "invalid type: expected string") xs
  | _ => .error "invalid type: expected array of strings"

/-- Modelled from the spec: deserialization of `QuoteResponse`. -/
def QuoteResponse.fromJson (j : Json) : Except String QuoteResponse :=
  match j with
  | .obj fields =>
    match List.lookup "outAmount" fields, List.lookup "routePlan" fields with
    | some a, some r => do
      let oa ← deserializeU64 a
      let rp ← deserStringList r
      pure ⟨oa, rp⟩
    | _, _ => .error "missing field in QuoteResponse"
  | _ => .error "invalid type: expected QuoteResponse object"

/-- Modelled from the spec: serialization of `QuoteResponse` (it is sent
back verbatim inside the swap request body). -/
def QuoteResponse.toJson (q : QuoteResponse) : Json :=
  .obj [("outAmount", .num q.out_amount), ("routePlan", .arr (q.route_plan.map Json.str))]

/-- Modelled from the spec: `SwapResponse` is "an encoded, ready-to-sign
transaction" (§3); `swap.rs` is not under `src/`. -/
structure SwapResponse where
  swap_transaction : String
deriving Repr, DecidableEq

/-- Modelled from the spec: deserialization of `SwapResponse`. -/
def SwapResponse.fromJson (j : Json) : Except String SwapResponse :=
  match j with
  | .obj fields =>
    match List.lookup "swapTransaction" fields with
    | some (.str t) => .ok ⟨t⟩
    | _ => .error "missing or invalid field swapTransaction"
  | _ => .error "invalid type: expected SwapResponse object"

/-- Modelled from the spec: `SwapRequest` "wraps a previously obtained
quote plus the caller's public key and a `TransactionConfig`" (§3);
`swap.rs` is not under `src/`. -/
structure SwapRequest where
  user_public_key : Pubkey
  quote_response : QuoteResponse
  config : TransactionConfig
deriving Repr, DecidableEq

/-- Modelled from the spec: the JSON body of a swap request; config
fields use the lower-camel-case encoding of §6. -/
def SwapRequest.toJson (r : SwapRequest) : Json :=
  .obj ([("userPublicKey", .str r.user_public_key),
         ("quoteResponse", r.quote_response.toJson)] ++ r.config.jsonFields)

/-- Modelled from the spec: the wire form of one instruction inside
`SwapInstructionsResponseInternal` (§3): a program id, account metas
(pubkey, is-signer, is-writable) and raw data bytes. -/
structure InstructionInternal where
  program_id : String
  accounts : List (String × Bool × Bool)
  data : List Nat
deriving Repr, DecidableEq

/-- Modelled from the spec: the wire representation
`SwapInstructionsResponseInternal` (§3): "a decomposed set of
setup/swap/cleanup instructions plus supporting account metadata". -/
structure SwapInstructionsResponseInternal where
  token_ledger_instruction : Option InstructionInternal
  compute_budget_instructions : List InstructionInternal
  setup_instructions : List InstructionInternal
  swap_instruction : InstructionInternal
  cleanup_instruction : Option InstructionInternal
  address_lookup_table_addresses : List String
deriving Repr, DecidableEq

/-- A typed account meta in the public representation. -/
structure AccountMeta where
  pubkey : Pubkey
  is_signer : Bool
  is_writable : Bool
deriving Repr, DecidableEq

/-- A typed instruction in the public representation. -/
structure Instruction where
  program_id : Pubkey
  accounts : List AccountMeta
  data : List Nat
deriving Repr, DecidableEq

/-- Modelled from the spec: the public `SwapInstructionsResponse` (§3). -/
structure SwapInstructionsResponse where
  token_ledger_instruction : Option Instruction
  compute_budget_instructions : List Instruction
  setup_instructions : List Instruction
  swap_instruction : Instruction
  cleanup_instruction : Option Instruction
  address_lookup_table_addresses : List Pubkey
deriving Repr, DecidableEq

/-- Modelled from the spec: the internal-to-public reshape of one
instruction — "ownership of the raw bytes moves into the richer typed
instruction representation" (§3); total by construction. -/
def Instruction.ofInternal (i : InstructionInternal) : Instruction :=
  ⟨i.program_id, i.accounts.map (fun a => ⟨a.1, a.2.1, a.2.2⟩), i.data⟩

/-- Modelled from the spec: the "explicit, total (non-failing) conversion
function" from the wire form to the public form (§9). -/
def SwapInstructionsResponse.fromInternal
    (r : SwapInstructionsResponseInternal) : SwapInstructionsResponse :=
  ⟨r.token_ledger_instruction.map Instruction.ofInternal,
   r.compute_budget_instructions.map Instruction.ofInternal,
   r.setup_instructions.map Instruction.ofInternal,
   Instruction.ofInternal r.swap_instruction,
   r.cleanup_instruction.map Instruction.ofInternal,
   r.address_lookup_table_addresses⟩

/-- Deserialize one account meta of the wire form. -/
def deserAccountMetaInternal (j : Json) : Except String (String × Bool × Bool) :=
  match j with
  | .obj fields =>
    match List.lookup "pubkey" fields, List.lookup "isSigner" fields,
          List.lookup "isWritable" fields with
    | some (.str p), some (.bool s), some (.bool w) => .ok (p, s, w)
    | _, _, _ => .error "invalid account meta"
  | _ => .error "invalid type: expected account meta object"

/-- Deserialize the raw data bytes of a wire instruction. -/
def deserByteList (j : Json) : Except String (List Nat) :=
  match j with
  | .arr xs =>
    exceptMapList
      (fun x => match x with
        | .num n => if 0 ≤ n ∧ n < 256 then .ok n.toNat else .error "invalid byte"
        | _ => .error "invalid byte") xs
  | _ => .error "invalid type: expected byte array"

/-- Deserialize one wire instruction. -/
def deserInstructionInternal (j : Json) : Except String InstructionInternal :=
  match j with
  | .obj fields =>
    match List.lookup "programId" fields, List.lookup "accounts" fields,
          List.lookup "data" fields with
    | some (.str pid), some (.arr accs), some dj => do
      let ams ← exceptMapList deserAccountMetaInternal accs
      let bytes ← deserByteList dj
      pure ⟨pid, ams, bytes⟩
    | _, _, _ => .error "missing field in instruction"
  | _ => .error "invalid type: expected instruction object"

/-- Deserialize a JSON array of wire instructions. -/
def deserInstructionList (j : Json) : Except String (List InstructionInternal) :=
  match j with
  | .arr xs => exceptMapList deserInstructionInternal xs
  | _ => .error "invalid type: expected instruction array"

/-- Deserialize an optional wire instruction field (absent or `null`
gives `none`). -/
def deserOptInstruction (fields : List (String × Json)) (key : String) :
    Except String (Option InstructionInternal) :=
  match List.lookup key fields with
  | none => .ok none
  | some .null => .ok none
  | some j => (deserInstructionInternal j).map some

/-- Fetch a required field of a JSON object. -/
def requireField (fields : List (String × Json)) (key : String) : Except String Json :=
  match List.lookup key fields with
  | some v => .ok v
  | none => .error ("missing field " ++ key)

/-- Modelled from the spec: deserialization of the wire representation
`SwapInstructionsResponseInternal`. -/
def deserSwapInstructionsInternal (j : Json) :
    Except String SwapInstructionsResponseInternal :=
  match j with
  | .obj fields => do
    let tli ← deserOptInstruction fields "tokenLedgerInstruction"
    let cbi ← deserInstructionList (← requireField fields "computeBudgetInstructions")
    let sui ← deserInstructionList (← requireField fields "setupInstructions")
    let si ← deserInstructionInternal (← requireField fields "swapInstruction")
    let cli ← deserOptInstruction fields "cleanupInstruction"
    let alts ← deserStringList (← requireField fields "addressLookupTableAddresses")
    pure ⟨tli, cbi, sui, si, cli, alts⟩
  | _ => .error "invalid type: expected swap instructions object"

/-! ### HTTP transport model

`lib.rs` delegates transport to `reqwest`.  A response is modelled by its
status code, the outcome of reading the body as text
(`Response::text()`, which can fail mid-stream), and the outcome of
reading-and-parsing the body as JSON (`Response::json()`). -/

/-- `StatusCode::is_success`: `200..=299`. -/
def isSuccessStatus (s : Nat) : Bool :=
  200 ≤ s && s < 300

/-- The canonical reason phrase used by the `Display` impl of
`http::StatusCode` (the codes exercised here, defaulting to the
`<unknown status code>` placeholder that impl uses). -/
def canonicalReason (s : Nat) : String :=
  if s = 200 then "OK"
  else if s = 400 then "Bad Request"
  else if s = 404 then "Not Found"
  else if s = 429 then "Too Many Requests"
  else if s = 500 then "Internal Server Error"
  else "<unknown status code>"

/-- `Display` of `http::StatusCode`: the numeric code, a space, and the
canonical reason. -/
def statusDisplay (s : Nat) : String :=
  toString s ++ (" " ++ canonicalReason s)

/-- One escaped character of Rust's `str` `Debug` formatting
(`char::escape_debug`): quote, backslash and the common control
characters get a backslash escape, other control bytes get a
`\u`-brace escape; printable characters map to themselves.  (Rust
additionally escapes some non-printable unicode; the claims only
exercise ASCII.) -/
def escapeDebugChar (c : Char) : List Char :=
  if c = '"' then ['\\', '"']
  else if c = '\\' then ['\\', '\\']
  else if c = '\n' then ['\\', 'n']
  else if c = '\t' then ['\\', 't']
  else if c = '\r' then ['\\', 'r']
  else if c.toNat < 32 ∨ c.toNat = 127 then
    '\\' :: 'u' :: Char.ofNat 123 :: (Nat.toDigits 16 c.toNat ++ [Char.ofNat 125])
  else [c]

/-- Rust `Debug` formatting of a string: escaped content between
quotes. -/
def escapeDebugString (s : String) : String :=
  String.mk (s.data.map escapeDebugChar).flatten

/-- Rust `Debug` formatting of the `Result<String, reqwest::Error>`
returned by `Response::text()`, as interpolated by the `{:?}` in
`check_is_success` (a failed body read is shown as the error's debug
text). -/
def debugFmtTextResult : Except String String → String
  | .ok s => "Ok(\"" ++ (escapeDebugString s ++ "\")")
  | .error e => "Err(" ++ (e ++ ")")

/-- The message built by `check_is_success` in `lib.rs`:
`anyhow!("Request status not ok: {}, body: {:?}", status, text)`. -/
def statusErrorMessage (status : Nat) (bodyText : Except String String) : String :=
  "Request status not ok: " ++ (statusDisplay status ++ (", body: " ++ debugFmtTextResult bodyText))

/-- An HTTP response as observed by the client code. -/
structure HttpResponse where
  status : Nat
  bodyText : Except String String
  bodyJson : Except String Json

/-- A `reqwest::Error`, by the category the caller can observe
(`anyhow::Error::downcast` recovers the concrete error value). -/
inductive ReqwestError where
  | decode (msg : String)
  | body (msg : String)
deriving Repr, DecidableEq

/-- An `anyhow::Error` as produced by `lib.rs`: `anyhow` wraps the
underlying error value and keeps its dynamic type downcastable, so the
three distinct sources stay distinguishable: the `anyhow!` message of
`check_is_success`, a converted `reqwest::Error`, and a converted
`serde_qs` serialization error. -/
inductive AnyError where
  | message (s : String)
  | reqwest (e : ReqwestError)
  | serdeQs (msg : String)
deriving Repr, DecidableEq

/-- `check_is_success` from `lib.rs`: non-success statuses become an
`anyhow!` message error carrying the status display and the debug form
of the best-effort body text. -/
def check_is_success (r : HttpResponse) : Except AnyError HttpResponse :=
  if isSuccessStatus r.status then .ok r
  else .error (.message (statusErrorMessage r.status r.bodyText))

/-- `Response::json::<T>()`: read the body and parse it; failures are
`reqwest::Error`s (`map_err(Into::into)` in `lib.rs` wraps them into
`anyhow::Error` unchanged). -/
def responseJson (deser : Json → Except String α) (r : HttpResponse) :
    Except AnyError α :=
  match r.bodyJson with
  | .error e => .error (.reqwest (.body e))
  | .ok j =>
    match deser j with
    | .error e => .error (.reqwest (.decode e))
    | .ok v => .ok v

/-- `check_status_code_and_deserialize` from `lib.rs`. -/
def check_status_code_and_deserialize (deser : Json → Except String α)
    (r : HttpResponse) : Except AnyError α :=
  (check_is_success r).bind (responseJson deser)

/-! ### Client construction -/

/-- `HeaderValue::from_str` accepts exactly the byte values
`32..=126`, `128..=255` and tab (`9`); every scalar above `U+007F`
encodes to bytes `≥ 128`, so on characters the check is: not a control
character other than tab, and not delete. -/
def validHeaderValueChar (c : Char) : Bool :=
  (32 ≤ c.toNat && c.toNat ≠ 127) || c.toNat = 9

/-- Whether a string is a valid HTTP header value. -/
def validHeaderValue (s : String) : Bool :=
  s.data.all validHeaderValueChar

/-- A fatal abort (Rust `panic`) during client construction: the
`.unwrap()` in `build_optimized_client` on an API key that is not a
valid header value.  Kept as a separate outcome type from `AnyError`:
it aborts the process instead of being returned to the caller. -/
inductive Fatal where
  | invalidHeaderValue
deriving Repr, DecidableEq

/-- The `reqwest::Client` state relevant to the claims: the default
headers attached to every request issued through it.  (The timeout,
pool, http2 and gzip settings of `build_optimized_client` carry no
client-observable data flow.) -/
structure ReqwestClient where
  defaultHeaders : List (String × String)
deriving Repr, DecidableEq

/-- `JupiterSwapApiClient::build_optimized_client` from `lib.rs`: with an
API key, `HeaderValue::from_str(api_key).unwrap()` panics on an invalid
header value, otherwise the key is installed as the default header
`x-api-key`. -/
def build_optimized_client : Option String → Except Fatal ReqwestClient
  | none => .ok ⟨[]⟩
  | some key =>
    if validHeaderValue key then .ok ⟨[("x-api-key", key)]⟩
    else .error .invalidHeaderValue

/-- The `JupiterSwapApiClient` struct from `lib.rs`. -/
structure JupiterSwapApiClient where
  base_path : String
  api_key : Option String
  client : ReqwestClient
deriving Repr, DecidableEq

/-- `JupiterSwapApiClient::new` from `lib.rs`. -/
def JupiterSwapApiClient.new (base_path : String) :
    Except Fatal JupiterSwapApiClient :=
  (build_optimized_client none).map fun c => ⟨base_path, none, c⟩

/-- `JupiterSwapApiClient::new_with_api_key` from `lib.rs`. -/
def JupiterSwapApiClient.new_with_api_key (base_path api_key : String) :
    Except Fatal JupiterSwapApiClient :=
  (build_optimized_client (some api_key)).map fun c => ⟨base_path, some api_key, c⟩

/-! ### The three operations

Each operation builds one HTTP request and sends it; the network is
passed in as a function from requests to responses, so "the request the
operation issues" and "the operation never consults the network" are
directly expressible. -/

/-- An HTTP request as assembled by `reqwest`: the client's default
headers are attached to every request; `RequestBuilder::json` also sets
the JSON content type. -/
structure HttpRequest where
  method : String
  url : String
  headers : List (String × String)
  body : Option Json
deriving Repr

/-- Modelled from the spec: `QuoteRequest` lives in `quote.rs`, which is
not under `src/`.  The spec (§3) declares it "opaque to this core beyond
'serializable to a flat query string'", so it is modelled by exactly
that interface: the outcome of its `serde_qs` query-string encoding. -/
structure QuoteRequest where
  queryEncoding : Except String String
deriving Repr

/-- `serde_qs::to_string(&quote_request)` in `JupiterSwapApiClient::quote`. -/
def quoteQuery (q : QuoteRequest) : Except String String :=
  q.queryEncoding

/-- The GET request `quote` issues for an encoded query string. -/
def JupiterSwapApiClient.quoteHttpRequest (c : JupiterSwapApiClient)
    (query : String) : HttpRequest :=
  ⟨"GET", c.base_path ++ ("/quote?" ++ query), c.client.defaultHeaders, none⟩

/-- `JupiterSwapApiClient::quote` from `lib.rs`: encode the query string
(propagating a serialization error before any request is sent), GET
`{base_path}/quote?{query}`, then check the status and deserialize. -/
def JupiterSwapApiClient.quote (c : JupiterSwapApiClient) (req : QuoteRequest)
    (net : HttpRequest → HttpResponse) : Except AnyError QuoteResponse :=
  match quoteQuery req with
  | .error e => .error (.serdeQs e)
  | .ok query =>
    check_status_code_and_deserialize QuoteResponse.fromJson (net (c.quoteHttpRequest query))

/-- The POST request `swap` issues. -/
def JupiterSwapApiClient.swapHttpRequest (c : JupiterSwapApiClient)
    (req : SwapRequest) : HttpRequest :=
  ⟨"POST", c.base_path ++ "/swap",
   c.client.defaultHeaders ++ [("content-type", "application/json")],
   some req.toJson⟩

/-- `JupiterSwapApiClient::swap` from `lib.rs`. -/
def JupiterSwapApiClient.swap (c : JupiterSwapApiClient) (req : SwapRequest)
    (net : HttpRequest → HttpResponse) : Except AnyError SwapResponse :=
  check_status_code_and_deserialize SwapResponse.fromJson (net (c.swapHttpRequest req))

/-- The POST request `swap_instructions` issues. -/
def JupiterSwapApiClient.swapInstructionsHttpRequest (c : JupiterSwapApiClient)
    (req : SwapRequest) : HttpRequest :=
  ⟨"POST", c.base_path ++ "/swap-instructions",
   c.client.defaultHeaders ++ [("content-type", "application/json")],
   some req.toJson⟩

/-- `JupiterSwapApiClient::swap_instructions` from `lib.rs`: deserialize
the success body as the internal wire type, then `map(Into::into)` —
the conversion is the total function `SwapInstructionsResponse.fromInternal`. -/
def JupiterSwapApiClient.swap_instructions (c : JupiterSwapApiClient)
    (req : SwapRequest) (net : HttpRequest → HttpResponse) :
    Except AnyError SwapInstructionsResponse :=
  (check_status_code_and_deserialize deserSwapInstructionsInternal
      (net (c.swapInstructionsHttpRequest req))).map
    SwapInstructionsResponse.fromInternal

/-! ### String containment helpers -/

/-- `needle` occurs contiguously inside `hay`. -/
def strContains (hay needle : String) : Prop :=
  ∃ pre post : String, hay = pre ++ (needle ++ post)

theorem strAppend_assoc (a b c : String) : (a ++ b) ++ c = a ++ (b ++ c) := by
  rcases a with ⟨la⟩
  rcases b with ⟨lb⟩
  rcases c with ⟨lc⟩
  show String.mk ((la ++ lb) ++ lc) = String.mk (la ++ (lb ++ lc))
  rw [List.append_assoc]

theorem strNil_append (a : String) : "" ++ a = a := by
  rcases a with ⟨la⟩
  show String.mk ([] ++ la) = String.mk la
  rw [List.nil_append]

theorem strContains_head (pre needle post : String) :
    strContains (pre ++ (needle ++ post)) needle :=
  ⟨pre, post, rfl⟩

theorem strContains_self_append (needle post : String) :
    strContains (needle ++ post) needle :=
  ⟨"", post, by rw [strNil_append]⟩

theorem strContains_append_left (s : String) {t needle : String}
    (h : strContains t needle) : strContains (s ++ t) needle := by
  obtain ⟨p, q, hpq⟩ := h
  exact ⟨s ++ p, q, by rw [hpq, strAppend_assoc]⟩

/-! ### Helper lemmas on the sentinel deserializers -/

theorem helperAutoAccepts_iff (j : Json) :
    helperAutoAccepts j = true ↔
      (j = .str "auto" ∨ j = .obj [("auto", Json.null)]) := by
  cases j with
  | null => simp [helperAutoAccepts]
  | bool b => simp [helperAutoAccepts]
  | num n => simp [helperAutoAccepts]
  | str s => simp [helperAutoAccepts]
  | arr xs => simp [helperAutoAccepts]
  | obj fields =>
    match fields with
    | [] => simp [helperAutoAccepts]
    | [(key, value)] => cases value <;> simp [helperAutoAccepts]
    | (a :: b :: rest) => simp [helperAutoAccepts]

theorem except_error_ne_ok {ε α : Type} (e : ε) (a : α) :
    (Except.error e : Except ε α) ≠ Except.ok a :=
  fun h => nomatch h

theorem cupml_fromJson_auto_iff (j : Json) :
    ComputeUnitPriceMicroLamports.fromJson j = .ok .Auto ↔
      helperAutoAccepts j = true := by
  unfold ComputeUnitPriceMicroLamports.fromJson
  cases hd : deserializeU64 j with
  | ok n =>
    constructor
    · intro h
      exact absurd h (by simp)
    · intro h
      rcases (helperAutoAccepts_iff j).mp h with rfl | rfl <;>
        simp [deserializeU64] at hd
  | error e =>
    by_cases hacc : helperAutoAccepts j <;> simp [hacc]

theorem pfl_fromJson_auto_iff (j : Json) :
    PrioritizationFeeLamports.fromJson j = .ok .Auto ↔
      (j = .obj [("auto", Json.str "auto")] ∨
       j = .obj [("auto", Json.obj [("auto", Json.null)])]) := by
  cases j with
  | null => simp [PrioritizationFeeLamports.fromJson]
  | bool b => simp [PrioritizationFeeLamports.fromJson]
  | num n => simp [PrioritizationFeeLamports.fromJson]
  | arr xs => simp [PrioritizationFeeLamports.fromJson]
  | str s =>
    refine iff_of_false ?_ (by rintro (h | h) <;> cases h)
    show ¬ (if s = "auto" ∨ s = "autoMultiplier" ∨ s = "jitoTipLamports" then
          (Except.error "invalid type: unit variant, expected newtype variant" :
            Except String PrioritizationFeeLamports)
        else Except.error "unknown variant") = Except.ok PrioritizationFeeLamports.Auto
    split_ifs <;> exact not_false
  | obj fields =>
    match fields with
    | [] => simp [PrioritizationFeeLamports.fromJson]
    | (a :: b :: rest) =>
      refine iff_of_false ?_ ?_
      · show ¬ (Except.error "invalid entries: expected map with a single key" :
            Except String PrioritizationFeeLamports) = Except.ok PrioritizationFeeLamports.Auto
        exact except_error_ne_ok _ _
      · rintro (h | h) <;> (injection h with hl; injection hl with hh ht; cases ht)
    | [(key, value)] =>
      show (if key = "auto" then
              (if helperAutoAccepts value then Except.ok PrioritizationFeeLamports.Auto
               else Except.error "invalid payload for variant auto")
            else if key = "autoMultiplier" then
              Except.map PrioritizationFeeLamports.AutoMultiplier (deserializeU64 value)
            else if key = "jitoTipLamports" then
              Except.map PrioritizationFeeLamports.JitoTipLamports (deserializeU64 value)
            else Except.error "unknown variant")
          = Except.ok PrioritizationFeeLamports.Auto ↔ _
      by_cases h1 : key = "auto"
      · subst h1
        rw [if_pos rfl]
        by_cases hacc : helperAutoAccepts value
        · rw [if_pos hacc]
          rcases (helperAutoAccepts_iff value).mp hacc with rfl | rfl <;> simp
        · rw [if_neg hacc]
          refine iff_of_false (except_error_ne_ok _ _) ?_
          rintro (h | h) <;>
            (injection h with hl; injection hl with hh ht; injection hh with hk hv;
             rw [hv] at hacc; simp [helperAutoAccepts] at hacc)
      · rw [if_neg h1]
        refine iff_of_false ?_ ?_
        · split_ifs with h2 h3
          · intro hco
            cases hd : deserializeU64 value <;> rw [hd] at hco <;>
              simp [Except.map] at hco
          · intro hco
            cases hd : deserializeU64 value <;> rw [hd] at hco <;>
              simp [Except.map] at hco
          · exact not_false
        · rintro (h | h) <;>
            (injection h with hl; injection hl with hh ht; injection hh with hk hv;
             exact h1 hk)

/-! ### Claim C1 -/

/-- C1 counterexample: for the `Default` value of `TransactionConfig`,
serialization does *not* omit the optional fields — each of the five is
emitted with value JSON `null` (the struct has no `skip_serializing_if`
attribute, so every field always emits its key). -/
theorem c1_counterexample :
    Json.lookupField (TransactionConfig.toJson TransactionConfig.default)
        "feeAccount" = some Json.null
    ∧ Json.lookupField (TransactionConfig.toJson TransactionConfig.default)
        "destinationTokenAccount" = some Json.null
    ∧ Json.lookupField (TransactionConfig.toJson TransactionConfig.default)
        "computeUnitPriceMicroLamports" = some Json.null
    ∧ Json.lookupField (TransactionConfig.toJson TransactionConfig.default)
        "prioritizationFeeLamports" = some Json.null
    ∧ Json.lookupField (TransactionConfig.toJson TransactionConfig.default)
        "blockhashSlotsToExpiry" = some Json.null :=
  ⟨rfl, rfl, rfl, rfl, rfl⟩

/-- C1 (amended): serializing `TransactionConfig::default()` emits every
optional field as JSON `null` (present key, `null` value, not omitted)
and the booleans exactly as `wrapAndUnwrapSol = true`,
`useSharedAccounts = true`, `dynamicComputeUnitLimit = false`,
`asLegacyTransaction = false`, `useTokenLedger = false`. -/
theorem c1_default_config_serialization :
    TransactionConfig.toJson TransactionConfig.default =
      Json.obj
        [("wrapAndUnwrapSol", .bool true),
         ("feeAccount", Json.null),
         ("destinationTokenAccount", Json.null),
         ("computeUnitPriceMicroLamports", Json.null),
         ("prioritizationFeeLamports", Json.null),
         ("dynamicComputeUnitLimit", .bool false),
         ("asLegacyTransaction", .bool false),
         ("useSharedAccounts", .bool true),
         ("useTokenLedger", .bool false),
         ("blockhashSlotsToExpiry", Json.null)] :=
  rfl

/-! ### Claim C2 -/

/-- C2 counterexample: `ComputeUnitPriceMicroLamports::Auto` does *not*
serialize to the string "auto" — the enum is `#[serde(untagged)]`, so
its unit variant serializes as JSON `null`. -/
theorem c2_counterexample :
    ComputeUnitPriceMicroLamports.toJson .Auto = Json.null
    ∧ Json.null ≠ Json.str "auto" :=
  ⟨rfl, by simp⟩

/-- C2 (amended): `PrioritizationFeeLamports::Auto` serializes to the
literal string "auto", but `ComputeUnitPriceMicroLamports::Auto`
(untagged) serializes to JSON `null`; the literal string "auto"
deserializes to `ComputeUnitPriceMicroLamports::Auto`, but
`PrioritizationFeeLamports` fails to deserialize from the bare string
"auto" (its `deserialize_with` unit variant demands the newtype form,
so only `{"auto": "auto"}`-shaped input yields `Auto`). -/
theorem c2_auto_sentinel_encoding :
    PrioritizationFeeLamports.toJson .Auto = Json.str "auto"
    ∧ ComputeUnitPriceMicroLamports.toJson .Auto = Json.null
    ∧ ComputeUnitPriceMicroLamports.fromJson (Json.str "auto") = .ok .Auto
    ∧ (PrioritizationFeeLamports.fromJson (Json.str "auto")
        = .error "invalid type: unit variant, expected newtype variant")
    ∧ PrioritizationFeeLamports.fromJson (Json.obj [("auto", Json.str "auto")])
        = .ok .Auto :=
  ⟨rfl, rfl, rfl, rfl, rfl⟩

/-! ### Claim C3 -/

/-- C3: serializing `PrioritizationFeeLamports::AutoMultiplier(n)` and
deserializing the result yields `AutoMultiplier(n)` again, and likewise
for `JitoTipLamports(n)`, for every `u64` value `n`. -/
theorem c3_prioritization_fee_roundtrip (n : Nat)
    (h : n < 18446744073709551616) :
    PrioritizationFeeLamports.fromJson
        (PrioritizationFeeLamports.toJson (.AutoMultiplier n))
      = .ok (.AutoMultiplier n)
    ∧ PrioritizationFeeLamports.fromJson
        (PrioritizationFeeLamports.toJson (.JitoTipLamports n))
      = .ok (.JitoTipLamports n) := by
  have hn : (0 : Int) ≤ (n : Int) ∧ (n : Int) < 18446744073709551616 :=
    ⟨Int.natCast_nonneg n, by exact_mod_cast h⟩
  have hd : deserializeU64 (.num (n : Int)) = .ok n := by
    show (if (0 : Int) ≤ (n : Int) ∧ (n : Int) < 18446744073709551616 then
        Except.ok (Int.toNat (n : Int))
      else Except.error "invalid value: number out of range for u64") = Except.ok n
    rw [if_pos hn]
    simp
  constructor
  · show Except.map PrioritizationFeeLamports.AutoMultiplier
        (deserializeU64 (.num (n : Int))) = _
    rw [hd]
    rfl
  · show Except.map PrioritizationFeeLamports.JitoTipLamports
        (deserializeU64 (.num (n : Int))) = _
    rw [hd]
    rfl

/-- C3 witness at `n = 7`. -/
theorem c3_witness :
    PrioritizationFeeLamports.fromJson
        (PrioritizationFeeLamports.toJson (.AutoMultiplier 7))
      = .ok (.AutoMultiplier 7)
    ∧ PrioritizationFeeLamports.fromJson
        (PrioritizationFeeLamports.toJson (.JitoTipLamports 7))
      = .ok (.JitoTipLamports 7) :=
  c3_prioritization_fee_roundtrip 7 (by decide)

/-! ### Claim C9 -/

/-- C9 counterexample: the `Auto` variant does not arise *only* from the
literal string "auto" — `ComputeUnitPriceMicroLamports` also decodes the
single-entry map `{"auto": null}` to `Auto` (the buffered untagged input
feeds the whole value to the helper enum, whose externally tagged map
form accepts a unit payload). -/
theorem c9_counterexample :
    ComputeUnitPriceMicroLamports.fromJson (Json.obj [("auto", Json.null)])
        = .ok .Auto
    ∧ Json.obj [("auto", Json.null)] ≠ Json.str "auto" :=
  ⟨rfl, by simp⟩

/-- C9 (amended): no numeric JSON input ever decodes to `Auto` in either
enum — the no-collision guarantee holds — but the set of inputs decoding
to `Auto` is not just the literal "auto": for
`ComputeUnitPriceMicroLamports` it is exactly the bare string "auto"
together with the map `{"auto": null}`, and for
`PrioritizationFeeLamports` the bare string "auto" is rejected and
exactly the maps `{"auto": "auto"}` and `{"auto": {"auto": null}}`
decode to `Auto`. -/
theorem c9_auto_decode_characterization :
    (∀ n : Int,
        ComputeUnitPriceMicroLamports.fromJson (Json.num n) ≠ .ok .Auto
        ∧ PrioritizationFeeLamports.fromJson (Json.num n) ≠ .ok .Auto)
    ∧ (∀ j, ComputeUnitPriceMicroLamports.fromJson j = .ok .Auto ↔
        (j = .str "auto" ∨ j = .obj [("auto", Json.null)]))
    ∧ (∀ j, PrioritizationFeeLamports.fromJson j = .ok .Auto ↔
        (j = .obj [("auto", Json.str "auto")] ∨
         j = .obj [("auto", Json.obj [("auto", Json.null)])])) := by
  refine ⟨fun n => ⟨?_, ?_⟩, fun j => ?_, pfl_fromJson_auto_iff⟩
  · intro h
    rcases ((cupml_fromJson_auto_iff _).trans (helperAutoAccepts_iff _)).mp h with
      h' | h' <;> cases h'
  · intro h
    rcases (pfl_fromJson_auto_iff _).mp h with h' | h' <;> cases h'
  · exact (cupml_fromJson_auto_iff j).trans (helperAutoAccepts_iff j)

/-! ### Claim C7 -/

/-- C7: constructing a client with an API key that cannot be encoded as
a header value aborts fatally (the `.unwrap()` panic in
`build_optimized_client`, modelled by the `Fatal` outcome type, distinct
from the recoverable `AnyError` the operations return); for every API
key that is a valid header value, construction succeeds. -/
theorem c7_construction_aborts_on_invalid_key (key : String) :
    (validHeaderValue key = false →
      build_optimized_client (some key) = .error .invalidHeaderValue)
    ∧ (validHeaderValue key = true →
      build_optimized_client (some key) = .ok ⟨[("x-api-key", key)]⟩) := by
  constructor
  · intro h
    simp [build_optimized_client, h]
  · intro h
    simp [build_optimized_client, h]

/-- C7 witness: a key containing a newline aborts construction; a plain
key constructs successfully. -/
theorem c7_witness :
    (validHeaderValue "\n" = false
      ∧ build_optimized_client (some "\n") = .error .invalidHeaderValue)
    ∧ (validHeaderValue "secret-key" = true
      ∧ build_optimized_client (some "secret-key")
          = .ok ⟨[("x-api-key", "secret-key")]⟩) :=
  ⟨⟨rfl, (c7_construction_aborts_on_invalid_key "\n").1 rfl⟩,
   ⟨rfl, (c7_construction_aborts_on_invalid_key "secret-key").2 rfl⟩⟩

/-! ### Claim C8 -/

/-- C8: a client built with an API key attaches the `x-api-key` default
header, so every request built by each of the three operations carries
it (without per-call re-specification — the header comes from the
client's stored default headers); a client built without a key issues
requests with no `x-api-key` header at all. -/
theorem c8_api_key_header (base_path api_key : String)
    (c : JupiterSwapApiClient)
    (h : JupiterSwapApiClient.new_with_api_key base_path api_key = .ok c) :
    (∀ q, ("x-api-key", api_key) ∈ (c.quoteHttpRequest q).headers)
    ∧ (∀ r, ("x-api-key", api_key) ∈ (c.swapHttpRequest r).headers)
    ∧ (∀ r, ("x-api-key", api_key) ∈ (c.swapInstructionsHttpRequest r).headers)
    ∧ (∀ bp c', JupiterSwapApiClient.new bp = .ok c' →
        ∀ v q r, ("x-api-key", v) ∉ (c'.quoteHttpRequest q).headers
          ∧ ("x-api-key", v) ∉ (c'.swapHttpRequest r).headers
          ∧ ("x-api-key", v) ∉ (c'.swapInstructionsHttpRequest r).headers) := by
  have hc : c.client.defaultHeaders = [("x-api-key", api_key)] := by
    unfold JupiterSwapApiClient.new_with_api_key build_optimized_client at h
    by_cases hv : validHeaderValue api_key
    · simp [hv, Except.map] at h
      subst h
      rfl
    · simp [hv, Except.map] at h
  have hnone : ∀ bp c', JupiterSwapApiClient.new bp = .ok c' →
      c'.client.defaultHeaders = [] := by
    intro bp c' h'
    unfold JupiterSwapApiClient.new build_optimized_client at h'
    simp [Except.map] at h'
    subst h'
    rfl
  refine ⟨?_, ?_, ?_, ?_⟩
  · intro q
    simp [JupiterSwapApiClient.quoteHttpRequest, hc]
  · intro r
    simp [JupiterSwapApiClient.swapHttpRequest, hc]
  · intro r
    simp [JupiterSwapApiClient.swapInstructionsHttpRequest, hc]
  · intro bp c' h' v q r
    refine ⟨?_, ?_, ?_⟩
    · simp [JupiterSwapApiClient.quoteHttpRequest, hnone bp c' h']
    · simp [JupiterSwapApiClient.swapHttpRequest, hnone bp c' h']
    · simp [JupiterSwapApiClient.swapInstructionsHttpRequest, hnone bp c' h']

/-- C8 witness: a concretely constructed keyed client carries the header
on a swap request. -/
theorem c8_witness :
    ∃ c, JupiterSwapApiClient.new_with_api_key "https://api" "k1" = .ok c
      ∧ ("x-api-key", "k1")
          ∈ (c.swapHttpRequest ⟨"user", ⟨0, []⟩, TransactionConfig.default⟩).headers := by
  refine ⟨⟨"https://api", some "k1", ⟨[("x-api-key", "k1")]⟩⟩, rfl, ?_⟩
  exact (c8_api_key_header "https://api" "k1" _ rfl).2.1 _

/-! ### Claim C5 -/

/-- C5: for every response with a non-success status, each of the three
operations returns the status error of `check_is_success` — an `anyhow!`
message carrying the status display and the debug form of the
best-effort body text; the message contains the numeric status code, and
when the body read succeeded it contains the (debug-escaped) body text;
a failed body read still produces the same status error, not a body-read
failure. -/
theorem c5_status_error_surfaced (r : HttpResponse)
    (hst : isSuccessStatus r.status = false) :
    (∀ (c : JupiterSwapApiClient) (q : QuoteRequest) (qs : String)
        (net : HttpRequest → HttpResponse),
        quoteQuery q = .ok qs → net (c.quoteHttpRequest qs) = r →
        c.quote q net = .error (.message (statusErrorMessage r.status r.bodyText)))
    ∧ (∀ (c : JupiterSwapApiClient) (sr : SwapRequest)
        (net : HttpRequest → HttpResponse),
        net (c.swapHttpRequest sr) = r →
        c.swap sr net = .error (.message (statusErrorMessage r.status r.bodyText)))
    ∧ (∀ (c : JupiterSwapApiClient) (sr : SwapRequest)
        (net : HttpRequest → HttpResponse),
        net (c.swapInstructionsHttpRequest sr) = r →
        c.swap_instructions sr net
          = .error (.message (statusErrorMessage r.status r.bodyText)))
    ∧ strContains (statusErrorMessage r.status r.bodyText) (toString r.status)
    ∧ (∀ b, r.bodyText = .ok b →
        strContains (statusErrorMessage r.status r.bodyText) (escapeDebugString b)) := by
  have hcheck : check_is_success r
      = .error (.message (statusErrorMessage r.status r.bodyText)) := by
    unfold check_is_success
    rw [hst]
    rfl
  have hpipe : ∀ {α : Type} (d : Json → Except String α),
      check_status_code_and_deserialize d r
        = .error (.message (statusErrorMessage r.status r.bodyText)) := by
    intro α d
    unfold check_status_code_and_deserialize
    rw [hcheck]
    rfl
  refine ⟨?_, ?_, ?_, ?_, ?_⟩
  · intro c q qs net hq hnet
    unfold JupiterSwapApiClient.quote
    rw [hq]
    show check_status_code_and_deserialize QuoteResponse.fromJson
        (net (c.quoteHttpRequest qs)) = _
    rw [hnet, hpipe]
  · intro c sr net hnet
    unfold JupiterSwapApiClient.swap
    rw [hnet, hpipe]
  · intro c sr net hnet
    unfold JupiterSwapApiClient.swap_instructions
    rw [hnet, hpipe]
    rfl
  · unfold statusErrorMessage statusDisplay
    apply strContains_append_left
    rw [strAppend_assoc]
    exact strContains_self_append _ _
  · intro b hb
    unfold statusErrorMessage
    rw [hb]
    show strContains ("Request status not ok: " ++ (statusDisplay r.status
      ++ (", body: " ++ ("Ok(\"" ++ (escapeDebugString b ++ "\")"))))) (escapeDebugString b)
    apply strContains_append_left
    apply strContains_append_left
    apply strContains_append_left
    exact strContains_head _ _ _

/-- C5 witness: a 400 response with body "bad request" yields, from
`swap`, the status error whose message contains both "400" and
"bad request". -/
theorem c5_witness :
    (JupiterSwapApiClient.mk "https://api" none ⟨[]⟩).swap
        ⟨"user", ⟨0, []⟩, TransactionConfig.default⟩
        (fun _ => ⟨400, .ok "bad request", .error "unread"⟩)
      = .error (.message "Request status not ok: 400 Bad Request, body: Ok(\"bad request\")")
    ∧ strContains "Request status not ok: 400 Bad Request, body: Ok(\"bad request\")" "400"
    ∧ strContains "Request status not ok: 400 Bad Request, body: Ok(\"bad request\")"
        "bad request" := by
  have h := c5_status_error_surfaced ⟨400, .ok "bad request", .error "unread"⟩ rfl
  refine ⟨?_, ?_, ?_⟩
  · exact h.2.1 ⟨"https://api", none, ⟨[]⟩⟩
      ⟨"user", ⟨0, []⟩, TransactionConfig.default⟩
      (fun _ => ⟨400, .ok "bad request", .error "unread"⟩) rfl
  · exact h.2.2.2.1
  · exact h.2.2.2.2 "bad request" rfl

/-! ### Claim C6 -/

/-- C6: for every success-status response whose body fails to parse as
the expected type, the operation returns the wrapped `reqwest` decode
error — a different `AnyError` constructor than the `anyhow!` message
a status error uses, so the two failure kinds can never be confused. -/
theorem c6_decode_error_distinct (r : HttpResponse)
    (hst : isSuccessStatus r.status = true) (j : Json) (hj : r.bodyJson = .ok j) :
    (∀ e, QuoteResponse.fromJson j = .error e →
      ∀ (c : JupiterSwapApiClient) (q : QuoteRequest) (qs : String)
        (net : HttpRequest → HttpResponse),
        quoteQuery q = .ok qs → net (c.quoteHttpRequest qs) = r →
        c.quote q net = .error (.reqwest (.decode e))
          ∧ ∀ s, (AnyError.reqwest (.decode e)) ≠ .message s)
    ∧ (∀ e, SwapResponse.fromJson j = .error e →
      ∀ (c : JupiterSwapApiClient) (sr : SwapRequest)
        (net : HttpRequest → HttpResponse),
        net (c.swapHttpRequest sr) = r →
        c.swap sr net = .error (.reqwest (.decode e))
          ∧ ∀ s, (AnyError.reqwest (.decode e)) ≠ .message s)
    ∧ (∀ e, deserSwapInstructionsInternal j = .error e →
      ∀ (c : JupiterSwapApiClient) (sr : SwapRequest)
        (net : HttpRequest → HttpResponse),
        net (c.swapInstructionsHttpRequest sr) = r →
        c.swap_instructions sr net = .error (.reqwest (.decode e))
          ∧ ∀ s, (AnyError.reqwest (.decode e)) ≠ .message s) := by
  have hcheck : check_is_success r = .ok r := by
    unfold check_is_success
    rw [hst]
    rfl
  have hpipe : ∀ {α : Type} (d : Json → Except String α) (e : String),
      d j = .error e →
      check_status_code_and_deserialize d r = .error (.reqwest (.decode e)) := by
    intro α d e hde
    unfold check_status_code_and_deserialize
    rw [hcheck]
    show responseJson d r = _
    unfold responseJson
    rw [hj]
    simp only []
    rw [hde]
  refine ⟨?_, ?_, ?_⟩
  · intro e hde c q qs net hq hnet
    refine ⟨?_, fun s h => AnyError.noConfusion h⟩
    unfold JupiterSwapApiClient.quote
    rw [hq]
    show check_status_code_and_deserialize QuoteResponse.fromJson
        (net (c.quoteHttpRequest qs)) = _
    rw [hnet]
    exact hpipe _ _ hde
  · intro e hde c sr net hnet
    refine ⟨?_, fun s h => AnyError.noConfusion h⟩
    unfold JupiterSwapApiClient.swap
    rw [hnet]
    exact hpipe _ _ hde
  · intro e hde c sr net hnet
    refine ⟨?_, fun s h => AnyError.noConfusion h⟩
    unfold JupiterSwapApiClient.swap_instructions
    rw [hnet, hpipe _ _ hde]
    rfl

/-- C6 witness: a 200 response whose body is the JSON string "oops"
fails to decode as a `SwapResponse`, and the resulting decode error is
a different constructor from every status-error message. -/
theorem c6_witness :
    (JupiterSwapApiClient.mk "https://api" none ⟨[]⟩).swap
        ⟨"user", ⟨0, []⟩, TransactionConfig.default⟩
        (fun _ => ⟨200, .ok "oops", .ok (Json.str "oops")⟩)
      = .error (.reqwest (.decode "invalid type: expected SwapResponse object"))
    ∧ AnyError.reqwest (.decode "invalid type: expected SwapResponse object")
        ≠ .message "oops" := by
  have h := (c6_decode_error_distinct ⟨200, .ok "oops", .ok (Json.str "oops")⟩ rfl
      (Json.str "oops") rfl).2.1 "invalid type: expected SwapResponse object" rfl
      ⟨"https://api", none, ⟨[]⟩⟩ ⟨"user", ⟨0, []⟩, TransactionConfig.default⟩
      (fun _ => ⟨200, .ok "oops", .ok (Json.str "oops")⟩) rfl
  exact ⟨h.1, h.2 "oops"⟩

/-! ### Claim C4 -/

/-- C4: `swap_instructions` deserializes the success body as the internal
wire type and then applies the total conversion: its errors are exactly
the errors of the internal-decode pipeline (the conversion step
introduces none), and every successfully decoded internal value is
returned converted. -/
theorem c4_internal_decode_then_total_conversion (c : JupiterSwapApiClient)
    (sr : SwapRequest) (net : HttpRequest → HttpResponse) :
    (∀ e, c.swap_instructions sr net = .error e ↔
        check_status_code_and_deserialize deserSwapInstructionsInternal
          (net (c.swapInstructionsHttpRequest sr)) = .error e)
    ∧ (∀ v, check_status_code_and_deserialize deserSwapInstructionsInternal
          (net (c.swapInstructionsHttpRequest sr)) = .ok v →
        c.swap_instructions sr net
          = .ok (SwapInstructionsResponse.fromInternal v)) := by
  unfold JupiterSwapApiClient.swap_instructions
  cases hp : check_status_code_and_deserialize deserSwapInstructionsInternal
      (net (c.swapInstructionsHttpRequest sr)) with
  | ok v =>
    constructor
    · intro e
      simp [Except.map]
    · intro v' hv'
      injection hv' with hv'
      rw [hv']
      rfl
  | error e0 =>
    constructor
    · intro e
      simp [Except.map]
    · intro v' hv'
      cases hv'

/-- C4 witness: a well-formed internal wire body converts and is
returned as the public response. -/
theorem c4_witness :
    (JupiterSwapApiClient.mk "https://api" none ⟨[]⟩).swap_instructions
        ⟨"user", ⟨0, []⟩, TransactionConfig.default⟩
        (fun _ => ⟨200, .ok "",
          .ok (Json.obj
            [("tokenLedgerInstruction", Json.null),
             ("computeBudgetInstructions", Json.arr []),
             ("setupInstructions", Json.arr []),
             ("swapInstruction", Json.obj
               [("programId", Json.str "prog"),
                ("accounts", Json.arr []),
                ("data", Json.arr [])]),
             ("cleanupInstruction", Json.null),
             ("addressLookupTableAddresses", Json.arr [])])⟩)
      = .ok (SwapInstructionsResponse.fromInternal
          ⟨none, [], [], ⟨"prog", [], []⟩, none, []⟩) :=
  (c4_internal_decode_then_total_conversion _ _ _).2
    ⟨none, [], [], ⟨"prog", [], []⟩, none, []⟩ rfl

/-! ### Claim C10 -/

/-- C10: when the query-string encoding of a `QuoteRequest` fails,
`quote` returns that serialization error (wrapped unchanged by the `?`
into the `anyhow` result, a failure kind distinct from message and
reqwest errors) and never consults the network — no HTTP request is
issued. -/
theorem c10_query_encoding_error_before_request (c : JupiterSwapApiClient)
    (q : QuoteRequest) (e : String) (h : quoteQuery q = .error e) :
    (∀ net, c.quote q net = .error (.serdeQs e))
    ∧ (∀ net net', c.quote q net = c.quote q net') := by
  have hq : ∀ net, c.quote q net = .error (.serdeQs e) := by
    intro net
    unfold JupiterSwapApiClient.quote
    rw [h]
  exact ⟨hq, fun net net' => (hq net).trans (hq net').symm⟩

/-- C10 witness: an unencodable request yields the serialization error
under one network and the very same outcome under a completely different
network. -/
theorem c10_witness :
    (JupiterSwapApiClient.mk "https://api" none ⟨[]⟩).quote
        ⟨Except.error "unsupported"⟩ (fun _ => ⟨200, .ok "", .ok Json.null⟩)
      = .error (.serdeQs "unsupported")
    ∧ (JupiterSwapApiClient.mk "https://api" none ⟨[]⟩).quote
        ⟨Except.error "unsupported"⟩ (fun _ => ⟨200, .ok "", .ok Json.null⟩)
      = (JupiterSwapApiClient.mk "https://api" none ⟨[]⟩).quote
          ⟨Except.error "unsupported"⟩ (fun _ => ⟨500, .error "x", .error "y"⟩) := by
  have h := c10_query_encoding_error_before_request
      ⟨"https://api", none, ⟨[]⟩⟩ ⟨Except.error "unsupported"⟩ "unsupported" rfl
  exact ⟨h.1 _, h.2 _ _⟩




